import Mathlib

/-!
Verification development for the Easy-Eyelink-Interface repository
(EyelinkWrapper.py). The module is a thin wrapper around the pylink SDK;
the one routine with decision logic is EyelinkGetGaze, which converts a raw
device gaze sample to display-centered coordinates, classifies blinks and
missing data, and decides whether gaze left a circular fixation window.

Modelling conventions:
 - coordinates, pupil size, radius and the pixels-per-degree factor are
   Python floats in the source; they are modelled as exact rationals, with
   the Euclidean distance living in the reals (the source takes a square
   root via numpy.sqrt);
 - the tracker handle is reduced to what EyelinkGetGaze touches:
   eyeAvailable(), getNewestSample() and the link event queue, from which
   getNextData() consumes one event on every connected call; ELState holds
   the values a single call reads, ELLink the tracker state across calls,
   and EyelinkGetGazeLink pairs the call with its effect on that state;
 - raising an exception, returning Python None, and returning the caller
   supplied OversamplingBehavior sentinel are separate constructors of the
   result type;
 - calls to the print statement are modelled by a list of printed lines
   returned next to the result, so that the I/O behaviour of the function
   is part of the model.
-/

/-- Constant pylink.MISSING_DATA, the sentinel the device reports on an
axis when gaze data is missing. -/
def MISSING_DATA : ℚ := -32768

/-- Constant pylink.STARTBLINK, the event code for the start of a blink. -/
def STARTBLINK : ℤ := 3

/-- Eye-availability code for the left eye (EyelinkWrapper.py line 414). -/
def LEFT_EYE : ℤ := 0

/-- Eye-availability code for the right eye (EyelinkWrapper.py line 413). -/
def RIGHT_EYE : ℤ := 1

/-- Eye-availability code for binocular mode (EyelinkWrapper.py line 415). -/
def BINOCULAR : ℤ := 2

/-- Per-eye data of a sample: getGaze() and getPupilSize(). -/
structure EyeData where
  gaze : ℚ × ℚ
  pupilSize : ℚ
  deriving DecidableEq

/-- A link sample as used by EyelinkGetGaze: the isLeftSample() and
isRightSample() flags and the per-eye data. -/
structure Sample where
  isLeftSample : Bool
  isRightSample : Bool
  leftEye : EyeData
  rightEye : EyeData
  deriving DecidableEq

/-- The part of the tracker state EyelinkGetGaze reads: eyeAvailable(),
getNewestSample() (none when no new sample is available) and getNextData()
(an integer event code). -/
structure ELState where
  eyeAvailable : ℤ
  newestSample : Option Sample
  nextData : ℤ
  deriving DecidableEq

/-- The dict returned by EyelinkGetGaze on a successful reading: keys x, y,
hsmvd and pupilSize (pupilSize is None in disconnected mode). -/
structure GazeReading where
  x : ℚ
  y : ℚ
  hsmvd : Bool
  pupilSize : Option ℚ
  deriving DecidableEq

/-- Possible results of EyelinkGetGaze: a reading dict, the Python None
returned by the binocular branch, the caller-supplied OversamplingBehavior
returned when no new sample is available, or a raised Exception. -/
inductive GazeResult (α : Type) where
  | reading (r : GazeReading)
  | pyNone
  | fallback (v : α)
  | raised (msg : String)

/-- Coordinate conversion of EyelinkGetGaze, lines 471 to 484: the device
origin is the top-left corner, psychopy's origin is the screen center, so
both axes are shifted by half the display size and the vertical axis is
flipped. -/
def convertGaze (dispsize : ℚ × ℚ) (gaze : ℚ × ℚ) : ℚ × ℚ :=
  let xhalf := dispsize.1 / 2
  let yhalf := dispsize.2 / 2
  let x := gaze.1
  let y := gaze.2
  let xout := if x ≥ xhalf then x - xhalf else (xhalf - x) * (-1)
  let yout := if y ≥ yhalf then (y - yhalf) * (-1) else yhalf - y
  (xout, yout)

/-- Euclidean distance between the target location and the converted gaze,
lines 487 to 490: numpy sqrt of the sum of squared differences. -/
noncomputable def gazeDist (targetLoc conv : ℚ × ℚ) : ℝ :=
  Real.sqrt (((targetLoc.1 - conv.1) ^ 2 + (targetLoc.2 - conv.2) ^ 2 : ℚ))

/-- Distance actually compared to FixLen, lines 491 to 494: the raw pixel
distance is divided by PixPerDeg when that factor is supplied; the radius
itself is never scaled. -/
noncomputable def scaledDist (targetLoc conv : ℚ × ℚ) (PixPerDeg : Option ℚ) : ℝ :=
  match PixPerDeg with
  | some ppd => gazeDist targetLoc conv / (ppd : ℝ)
  | none => gazeDist targetLoc conv

/-- Eye selection of EyelinkGetGaze, lines 434 to 443: the left-eye data is
used when eyeAvailable() is LEFT_EYE and the sample is a left sample, else
the right-eye data when eyeAvailable() is RIGHT_EYE and the sample is a
right sample; otherwise no eye is selected and lines 444 to 448 decide
between the binocular branch and the raised exception. -/
def eyeSelected (el : ELState) (sample : Sample) : Option ((ℚ × ℚ) × ℚ) :=
  if el.eyeAvailable = LEFT_EYE ∧ sample.isLeftSample then
    some (sample.leftEye.gaze, sample.leftEye.pupilSize)
  else if el.eyeAvailable = RIGHT_EYE ∧ sample.isRightSample then
    some (sample.rightEye.gaze, sample.rightEye.pupilSize)
  else none

open Classical in
/-- Body of EyelinkGetGaze after eye selection, lines 450 to 500: blink /
missing-data classification when an axis holds MISSING_DATA, otherwise
coordinate conversion and the fixation-window test. The second component
collects the printed debug lines. -/
noncomputable def processGaze (targetLoc : ℚ × ℚ) (FixLen : ℚ)
    (dispsize : ℚ × ℚ) (event : ℤ) (PixPerDeg : Option ℚ)
    (IgnoreBlinks : Bool) (gaze : ℚ × ℚ) (pupil : ℚ) :
    GazeReading × List String :=
  if gaze.1 = MISSING_DATA ∨ gaze.2 = MISSING_DATA then
    let bp : Bool × List String :=
      if event = STARTBLINK then (true, ["Subject is definitely blinking"])
      else if pupil = 0 then (true, ["Subject is probably blinking"])
      else (false, ["Missing data but no blink?"])
    if bp.1 ∧ ¬IgnoreBlinks then
      (⟨gaze.1, gaze.2, true, some pupil⟩, bp.2)
    else if bp.1 ∧ IgnoreBlinks then
      (⟨targetLoc.1, targetLoc.2, false, some pupil⟩, bp.2)
    else
      (⟨gaze.1, gaze.2, true, some pupil⟩, bp.2)
  else
    let g := convertGaze dispsize gaze
    (⟨g.1, g.2, decide (scaledDist targetLoc g PixPerDeg > (FixLen : ℝ)),
      some pupil⟩, [])

/-- EyelinkGetGaze, lines 368 to 507, as a function of the tracker values
a single call reads. Arguments follow the source signature; el bundles the
values read from the tracker, and OversamplingBehavior is the caller-chosen
sentinel returned when no new sample is available. The returned list holds
the printed lines. The call's effect on the tracker itself, the link-queue
pop performed by el.getNextData() on line 430, is modelled by
EyelinkGetGazeLink below. -/
noncomputable def EyelinkGetGaze {α : Type} (targetLoc : ℚ × ℚ) (FixLen : ℚ)
    (dispsize : ℚ × ℚ) (el : ELState) (isET : Bool) (PixPerDeg : Option ℚ)
    (IgnoreBlinks : Bool) (OversamplingBehavior : α) :
    GazeResult α × List String :=
  if isET then
    match el.newestSample with
    | some sample =>
      match eyeSelected el sample with
      | some gp =>
        let rp := processGaze targetLoc FixLen dispsize el.nextData PixPerDeg
          IgnoreBlinks gp.1 gp.2
        (GazeResult.reading rp.1, rp.2)
      | none =>
        if el.eyeAvailable = BINOCULAR then
          (GazeResult.pyNone, ["Binocular mode not yet implemented"])
        else
          (GazeResult.raised "Could not detect which eye has been tracked", [])
    | none => (GazeResult.fallback OversamplingBehavior, [])
  else
    (GazeResult.reading ⟨targetLoc.1, targetLoc.2, false, none⟩, [])

/-- The tracker state EyelinkGetGaze interacts with across calls:
eyeAvailable(), getNewestSample() and the link event queue behind
getNextData(). -/
structure ELLink where
  eyeAvailable : ℤ
  newestSample : Option Sample
  queue : List ℤ
  deriving DecidableEq

/-- Model of el.getNextData(), line 430: pops the next event from the link
event queue, returning the event code 0 when nothing is pending. -/
def getNextData : List ℤ → ℤ × List ℤ
  | [] => (0, [])
  | e :: rest => (e, rest)

/-- EyelinkGetGaze together with its effect on the tracker. When isET is
true, lines 428 to 430 read the newest sample and consume one event from
the link queue before anything else is decided, so the queue is popped on
every connected call, also when no new sample is available; a disconnected
call never touches the tracker. The first component is the result and
printed lines of EyelinkGetGaze on the values read, the second the tracker
state after the call. -/
noncomputable def EyelinkGetGazeLink {α : Type} (targetLoc : ℚ × ℚ)
    (FixLen : ℚ) (dispsize : ℚ × ℚ) (link : ELLink) (isET : Bool)
    (PixPerDeg : Option ℚ) (IgnoreBlinks : Bool) (OversamplingBehavior : α) :
    (GazeResult α × List String) × ELLink :=
  if isET then
    (EyelinkGetGaze targetLoc FixLen dispsize
        ⟨link.eyeAvailable, link.newestSample, (getNextData link.queue).1⟩
        true PixPerDeg IgnoreBlinks OversamplingBehavior,
     ⟨link.eyeAvailable, link.newestSample, (getNextData link.queue).2⟩)
  else
    (EyelinkGetGaze targetLoc FixLen dispsize
        ⟨link.eyeAvailable, link.newestSample, 0⟩
        false PixPerDeg IgnoreBlinks OversamplingBehavior, link)

example : convertGaze (1920, 1080) (960, 540) = (0, 0) := by
  norm_num [convertGaze]

example : convertGaze (1920, 1080) (1920, 540) = (960, 0) := by
  norm_num [convertGaze]

/-- C2: the two-branch conversion is a single subtraction on the
horizontal axis, and an orientation flip on the vertical axis: the
vertical output is height/2 - y, so y = height/2 + k maps to -k and
y = height/2 - k maps to +k for k > 0. -/
theorem convertGaze_single_subtraction (w h x y k : ℚ) (hk : 0 < k) :
    (convertGaze (w, h) (x, y)).1 = x - w / 2
    ∧ (convertGaze (w, h) (x, y)).2 = h / 2 - y
    ∧ (convertGaze (w, h) (x, h / 2 + k)).2 = -k
    ∧ (convertGaze (w, h) (x, h / 2 - k)).2 = k := by
  refine ⟨?_, ?_, ?_, ?_⟩ <;>
    · simp only [convertGaze]
      split <;> ring

/-- Witness for C2 at width 1920, height 1080, x = 5, y = 100, k = 3. -/
theorem convertGaze_single_subtraction_witness :
    (convertGaze (1920, 1080) (5, 100)).1 = 5 - 1920 / 2
    ∧ (convertGaze (1920, 1080) (5, 100)).2 = 1080 / 2 - 100
    ∧ (convertGaze (1920, 1080) (5, 1080 / 2 + 3)).2 = -3
    ∧ (convertGaze (1920, 1080) (5, 1080 / 2 - 3)).2 = 3 :=
  convertGaze_single_subtraction 1920 1080 5 100 3 (by norm_num)

/-- C4: with isET false, EyelinkGetGaze bypasses all sampling logic and
returns the target coordinates verbatim with hsmvd false and pupilSize
None, regardless of every other argument; nothing is printed. -/
theorem disconnected_returns_target {α : Type} (targetLoc : ℚ × ℚ)
    (FixLen : ℚ) (dispsize : ℚ × ℚ) (el : ELState) (PixPerDeg : Option ℚ)
    (IgnoreBlinks : Bool) (OversamplingBehavior : α) :
    EyelinkGetGaze targetLoc FixLen dispsize el false PixPerDeg IgnoreBlinks
        OversamplingBehavior =
      (GazeResult.reading ⟨targetLoc.1, targetLoc.2, false, none⟩, []) := by
  simp [EyelinkGetGaze]

/-- C7: with isET true and no new sample available, EyelinkGetGaze returns
the caller-supplied OversamplingBehavior sentinel as-is, raising nothing
and printing nothing. -/
theorem no_sample_returns_fallback {α : Type} (targetLoc : ℚ × ℚ)
    (FixLen : ℚ) (dispsize : ℚ × ℚ) (el : ELState) (PixPerDeg : Option ℚ)
    (IgnoreBlinks : Bool) (OversamplingBehavior : α)
    (h : el.newestSample = none) :
    EyelinkGetGaze targetLoc FixLen dispsize el true PixPerDeg IgnoreBlinks
        OversamplingBehavior =
      (GazeResult.fallback OversamplingBehavior, []) := by
  simp [EyelinkGetGaze, h]

/-- Witness for C7: a concrete state with no sample returns the sentinel
value 7. -/
theorem no_sample_returns_fallback_witness :
    EyelinkGetGaze (0, 0) 50 (1920, 1080) ⟨0, none, 0⟩ true none false
        (7 : ℕ) = (GazeResult.fallback 7, []) :=
  no_sample_returns_fallback (0, 0) 50 (1920, 1080) ⟨0, none, 0⟩ none false
    7 rfl

/-- C6: when a sample is available but neither the left-eye nor the
right-eye branch matches and eyeAvailable() is not BINOCULAR, EyelinkGetGaze
raises an Exception and returns no reading. -/
theorem ambiguous_eye_raises {α : Type} (targetLoc : ℚ × ℚ) (FixLen : ℚ)
    (dispsize : ℚ × ℚ) (el : ELState) (PixPerDeg : Option ℚ)
    (IgnoreBlinks : Bool) (OversamplingBehavior : α) (sample : Sample)
    (hs : el.newestSample = some sample)
    (he : eyeSelected el sample = none)
    (hb : el.eyeAvailable ≠ BINOCULAR) :
    EyelinkGetGaze targetLoc FixLen dispsize el true PixPerDeg IgnoreBlinks
        OversamplingBehavior =
      (GazeResult.raised "Could not detect which eye has been tracked", []) := by
  simp [EyelinkGetGaze, hs, he, hb]

/-- Witness for C6: eyeAvailable reports the left eye but the sample is a
right-eye sample, so no branch matches and the call raises. -/
theorem ambiguous_eye_raises_witness :
    EyelinkGetGaze (0, 0) 50 (1920, 1080)
        ⟨0, some ⟨false, true, ⟨(5, 5), 1⟩, ⟨(6, 6), 1⟩⟩, 0⟩ true none false
        (0 : ℕ) =
      (GazeResult.raised "Could not detect which eye has been tracked", []) :=
  ambiguous_eye_raises (0, 0) 50 (1920, 1080)
    ⟨0, some ⟨false, true, ⟨(5, 5), 1⟩, ⟨(6, 6), 1⟩⟩, 0⟩ none false 0
    ⟨false, true, ⟨(5, 5), 1⟩, ⟨(6, 6), 1⟩⟩ rfl (by decide) (by decide)

/-- Counterexample to C5: with a sample available and eyeAvailable()
reporting BINOCULAR, EyelinkGetGaze does not signal an error; it prints a
not-implemented notice and returns the Python None, a silent empty
result. -/
theorem binocular_returns_none_concrete :
    EyelinkGetGaze (0, 0) 50 (1920, 1080)
        ⟨2, some ⟨true, true, ⟨(5, 5), 1⟩, ⟨(6, 6), 1⟩⟩, 0⟩ true none false
        (0 : ℕ) =
      (GazeResult.pyNone, ["Binocular mode not yet implemented"]) := by
  simp [EyelinkGetGaze, eyeSelected, LEFT_EYE, RIGHT_EYE, BINOCULAR]

/-- C5 amended: whenever the tracker reports binocular eye availability
for an available sample, EyelinkGetGaze prints a not-implemented notice
and returns Python None: it produces neither a reading nor a raised
error. -/
theorem binocular_prints_and_returns_none {α : Type} (targetLoc : ℚ × ℚ)
    (FixLen : ℚ) (dispsize : ℚ × ℚ) (el : ELState) (PixPerDeg : Option ℚ)
    (IgnoreBlinks : Bool) (OversamplingBehavior : α) (sample : Sample)
    (hs : el.newestSample = some sample)
    (hb : el.eyeAvailable = BINOCULAR) :
    EyelinkGetGaze targetLoc FixLen dispsize el true PixPerDeg IgnoreBlinks
        OversamplingBehavior =
      (GazeResult.pyNone, ["Binocular mode not yet implemented"]) := by
  have he : eyeSelected el sample = none := by
    simp [eyeSelected, hb, LEFT_EYE, RIGHT_EYE, BINOCULAR]
  simp [EyelinkGetGaze, hs, he, hb]

/-- Witness for the amended C5 at a concrete binocular state. -/
theorem binocular_prints_witness :
    EyelinkGetGaze (0, 0) 50 (1920, 1080)
        ⟨2, some ⟨true, false, ⟨(5, 5), 1⟩, ⟨(6, 6), 1⟩⟩, 0⟩ true none true
        (3 : ℕ) =
      (GazeResult.pyNone, ["Binocular mode not yet implemented"]) :=
  binocular_prints_and_returns_none (0, 0) 50 (1920, 1080)
    ⟨2, some ⟨true, false, ⟨(5, 5), 1⟩, ⟨(6, 6), 1⟩⟩, 0⟩ none true 3
    ⟨true, false, ⟨(5, 5), 1⟩, ⟨(6, 6), 1⟩⟩ rfl rfl

/-- C1: for an available sample with valid (non-missing) coordinates, the
returned hsmvd flag is true iff the Euclidean distance between the
converted gaze point and the target — divided by PixPerDeg when supplied,
the radius itself never being scaled — strictly exceeds FixLen; when the
distance equals FixLen the flag is false. -/
theorem hsmvd_iff_dist_gt_radius {α : Type} (targetLoc : ℚ × ℚ) (FixLen : ℚ)
    (dispsize : ℚ × ℚ) (el : ELState) (PixPerDeg : Option ℚ)
    (IgnoreBlinks : Bool) (OversamplingBehavior : α) (sample : Sample)
    (g : ℚ × ℚ) (p : ℚ)
    (hs : el.newestSample = some sample)
    (he : eyeSelected el sample = some (g, p))
    (h1 : g.1 ≠ MISSING_DATA) (h2 : g.2 ≠ MISSING_DATA) :
    ∃ r : GazeReading,
      EyelinkGetGaze targetLoc FixLen dispsize el true PixPerDeg IgnoreBlinks
          OversamplingBehavior = (GazeResult.reading r, [])
      ∧ r.x = (convertGaze dispsize g).1
      ∧ r.y = (convertGaze dispsize g).2
      ∧ r.pupilSize = some p
      ∧ (r.hsmvd = true ↔
          scaledDist targetLoc (convertGaze dispsize g) PixPerDeg > (FixLen : ℝ))
      ∧ (scaledDist targetLoc (convertGaze dispsize g) PixPerDeg = (FixLen : ℝ) →
          r.hsmvd = false) := by
  refine ⟨⟨(convertGaze dispsize g).1, (convertGaze dispsize g).2,
    decide (scaledDist targetLoc (convertGaze dispsize g) PixPerDeg > (FixLen : ℝ)),
    some p⟩, ?_, rfl, rfl, rfl, ?_, ?_⟩
  · simp [EyelinkGetGaze, hs, he, processGaze, h1, h2]
  · simp
  · intro hd
    simp only [hd]
    simp

/-- Witness for C1: gaze (1000, 540) on a 1920 x 1080 display converts to
(40, 0); with target (0, 0) the claim instance holds. -/
theorem hsmvd_iff_dist_gt_radius_witness :
    ∃ r : GazeReading,
      EyelinkGetGaze (0, 0) 50 (1920, 1080)
          ⟨0, some ⟨true, false, ⟨(1000, 540), 700⟩, ⟨(6, 6), 1⟩⟩, 0⟩ true
          none false (0 : ℕ) = (GazeResult.reading r, [])
      ∧ r.x = (convertGaze (1920, 1080) (1000, 540)).1
      ∧ r.y = (convertGaze (1920, 1080) (1000, 540)).2
      ∧ r.pupilSize = some 700
      ∧ (r.hsmvd = true ↔
          scaledDist (0, 0) (convertGaze (1920, 1080) (1000, 540)) none > ((50 : ℚ) : ℝ))
      ∧ (scaledDist (0, 0) (convertGaze (1920, 1080) (1000, 540)) none = ((50 : ℚ) : ℝ) →
          r.hsmvd = false) :=
  hsmvd_iff_dist_gt_radius (0, 0) 50 (1920, 1080)
    ⟨0, some ⟨true, false, ⟨(1000, 540), 700⟩, ⟨(6, 6), 1⟩⟩, 0⟩ none false 0
    ⟨true, false, ⟨(1000, 540), 700⟩, ⟨(6, 6), 1⟩⟩ (1000, 540) 700 rfl
    (by decide) (by decide) (by decide)

/-- C3: for an available sample whose raw coordinates hold MISSING_DATA on
either axis, the reading is classified a blink iff the concurrent event is
STARTBLINK or, failing that, the pupil size is exactly zero. Blink with
IgnoreBlinks false leaves the raw coordinates and sets hsmvd true; blink
with IgnoreBlinks true substitutes the target coordinates and sets hsmvd
false; missing without blink sets hsmvd true on the raw coordinates. -/
theorem missing_blink_policy {α : Type} (targetLoc : ℚ × ℚ) (FixLen : ℚ)
    (dispsize : ℚ × ℚ) (el : ELState) (PixPerDeg : Option ℚ)
    (IgnoreBlinks : Bool) (OversamplingBehavior : α) (sample : Sample)
    (g : ℚ × ℚ) (p : ℚ)
    (hs : el.newestSample = some sample)
    (he : eyeSelected el sample = some (g, p))
    (hm : g.1 = MISSING_DATA ∨ g.2 = MISSING_DATA) :
    ((el.nextData = STARTBLINK ∨ p = 0) → IgnoreBlinks = false →
      (EyelinkGetGaze targetLoc FixLen dispsize el true PixPerDeg IgnoreBlinks
          OversamplingBehavior).1 =
        GazeResult.reading ⟨g.1, g.2, true, some p⟩)
    ∧ ((el.nextData = STARTBLINK ∨ p = 0) → IgnoreBlinks = true →
      (EyelinkGetGaze targetLoc FixLen dispsize el true PixPerDeg IgnoreBlinks
          OversamplingBehavior).1 =
        GazeResult.reading ⟨targetLoc.1, targetLoc.2, false, some p⟩)
    ∧ (¬(el.nextData = STARTBLINK ∨ p = 0) →
      (EyelinkGetGaze targetLoc FixLen dispsize el true PixPerDeg IgnoreBlinks
          OversamplingBehavior).1 =
        GazeResult.reading ⟨g.1, g.2, true, some p⟩) := by
  refine ⟨?_, ?_, ?_⟩
  · rintro hb rfl
    rcases hb with hb | hb
    · simp [EyelinkGetGaze, hs, he, processGaze, hm, hb]
    · by_cases hev : el.nextData = STARTBLINK <;>
        simp [EyelinkGetGaze, hs, he, processGaze, hm, hb, hev]
  · rintro hb rfl
    rcases hb with hb | hb
    · simp [EyelinkGetGaze, hs, he, processGaze, hm, hb]
    · by_cases hev : el.nextData = STARTBLINK <;>
        simp [EyelinkGetGaze, hs, he, processGaze, hm, hb, hev]
  · intro hb
    push_neg at hb
    simp [EyelinkGetGaze, hs, he, processGaze, hm, hb.1, hb.2]

/-- Witness for C3: a left-eye sample with both axes missing, a STARTBLINK
event and IgnoreBlinks false keeps the raw missing coordinates and flags
hsmvd. -/
theorem missing_blink_policy_witness :
    (EyelinkGetGaze (0, 0) 50 (1920, 1080)
        ⟨0, some ⟨true, false, ⟨(-32768, -32768), 0⟩, ⟨(6, 6), 1⟩⟩, 3⟩ true
        none false (0 : ℕ)).1 =
      GazeResult.reading ⟨-32768, -32768, true, some 0⟩ :=
  (missing_blink_policy (0, 0) 50 (1920, 1080)
      ⟨0, some ⟨true, false, ⟨(-32768, -32768), 0⟩, ⟨(6, 6), 1⟩⟩, 3⟩ none
      false 0 ⟨true, false, ⟨(-32768, -32768), 0⟩, ⟨(6, 6), 1⟩⟩
      (-32768, -32768) 0 rfl (by decide) (by decide)).1
    (Or.inl (by decide)) rfl

/-- Counterexample to C8: EyelinkGetGaze is not free of I/O; on a blink it
prints a debug line to the console. -/
theorem blink_branch_prints_concrete :
    (EyelinkGetGaze (0, 0) 50 (1920, 1080)
        ⟨0, some ⟨true, false, ⟨(-32768, -32768), 0⟩, ⟨(6, 6), 1⟩⟩, 3⟩ true
        none false (0 : ℕ)).2 = ["Subject is definitely blinking"] := by
  simp [EyelinkGetGaze, eyeSelected, processGaze, MISSING_DATA, STARTBLINK,
    LEFT_EYE, RIGHT_EYE]

/-- C8 amended: EyelinkGetGaze is not effect-free: every connected call
consumes one event from the tracker's link queue (line 430), also when no
new sample is available, and the missing-data and binocular branches print
to the console. Beyond the queue pop and those prints the call has no
effect: the valid-coordinates, no-sample and disconnected paths print
nothing, a disconnected call leaves the tracker state untouched, and the
result is a function of the tracker values read. -/
theorem effects_of_EyelinkGetGaze {α : Type} (targetLoc : ℚ × ℚ)
    (FixLen : ℚ) (dispsize : ℚ × ℚ) (link : ELLink) (PixPerDeg : Option ℚ)
    (IgnoreBlinks : Bool) (OversamplingBehavior : α) (sample : Sample)
    (g : ℚ × ℚ) (p : ℚ) (e : ℤ) (rest : List ℤ) :
    ((EyelinkGetGazeLink targetLoc FixLen dispsize link true PixPerDeg
        IgnoreBlinks OversamplingBehavior).2 =
      ⟨link.eyeAvailable, link.newestSample, (getNextData link.queue).2⟩)
    ∧ (link.queue = e :: rest →
      (EyelinkGetGazeLink targetLoc FixLen dispsize link true PixPerDeg
          IgnoreBlinks OversamplingBehavior).2.queue = rest)
    ∧ ((EyelinkGetGazeLink targetLoc FixLen dispsize link false PixPerDeg
        IgnoreBlinks OversamplingBehavior).2 = link)
    ∧ ((EyelinkGetGazeLink targetLoc FixLen dispsize link false PixPerDeg
        IgnoreBlinks OversamplingBehavior).1.2 = [])
    ∧ (link.newestSample = none →
      (EyelinkGetGazeLink targetLoc FixLen dispsize link true PixPerDeg
          IgnoreBlinks OversamplingBehavior).1.2 = [])
    ∧ (link.newestSample = some sample →
      eyeSelected ⟨link.eyeAvailable, link.newestSample,
          (getNextData link.queue).1⟩ sample = some (g, p) →
      g.1 ≠ MISSING_DATA → g.2 ≠ MISSING_DATA →
      (EyelinkGetGazeLink targetLoc FixLen dispsize link true PixPerDeg
          IgnoreBlinks OversamplingBehavior).1.2 = []) := by
  refine ⟨?_, ?_, ?_, ?_, ?_, ?_⟩
  · simp [EyelinkGetGazeLink]
  · intro hq
    simp [EyelinkGetGazeLink, hq, getNextData]
  · simp [EyelinkGetGazeLink]
  · simp [EyelinkGetGazeLink, EyelinkGetGaze]
  · intro hs
    simp [EyelinkGetGazeLink, EyelinkGetGaze, hs]
  · intro hs he h1 h2
    rw [hs] at he
    simp [EyelinkGetGazeLink, EyelinkGetGaze, hs, he, processGaze, h1, h2]

/-- Witness for the amended C8: a connected call on queue [3, 7] with a
valid left-eye sample pops the queue to [7] and prints nothing; a
disconnected call leaves the tracker untouched; a connected call with no
sample also prints nothing. -/
theorem effects_of_EyelinkGetGaze_witness :
    ((EyelinkGetGazeLink (0, 0) 50 (1920, 1080)
        ⟨0, some ⟨true, false, ⟨(1000, 540), 700⟩, ⟨(6, 6), 1⟩⟩, [3, 7]⟩
        true none false (0 : ℕ)).2 =
      ⟨0, some ⟨true, false, ⟨(1000, 540), 700⟩, ⟨(6, 6), 1⟩⟩, [7]⟩)
    ∧ ((EyelinkGetGazeLink (0, 0) 50 (1920, 1080)
        ⟨0, some ⟨true, false, ⟨(1000, 540), 700⟩, ⟨(6, 6), 1⟩⟩, [3, 7]⟩
        true none false (0 : ℕ)).2.queue = [7])
    ∧ ((EyelinkGetGazeLink (0, 0) 50 (1920, 1080)
        ⟨0, some ⟨true, false, ⟨(1000, 540), 700⟩, ⟨(6, 6), 1⟩⟩, [3, 7]⟩
        false none false (0 : ℕ)).2 =
      ⟨0, some ⟨true, false, ⟨(1000, 540), 700⟩, ⟨(6, 6), 1⟩⟩, [3, 7]⟩)
    ∧ ((EyelinkGetGazeLink (0, 0) 50 (1920, 1080)
        ⟨0, some ⟨true, false, ⟨(1000, 540), 700⟩, ⟨(6, 6), 1⟩⟩, [3, 7]⟩
        false none false (0 : ℕ)).1.2 = [])
    ∧ ((EyelinkGetGazeLink (0, 0) 50 (1920, 1080) ⟨0, none, []⟩ true none
        false (0 : ℕ)).1.2 = [])
    ∧ ((EyelinkGetGazeLink (0, 0) 50 (1920, 1080)
        ⟨0, some ⟨true, false, ⟨(1000, 540), 700⟩, ⟨(6, 6), 1⟩⟩, [3, 7]⟩
        true none false (0 : ℕ)).1.2 = []) :=
  ⟨(effects_of_EyelinkGetGaze (0, 0) 50 (1920, 1080)
      ⟨0, some ⟨true, false, ⟨(1000, 540), 700⟩, ⟨(6, 6), 1⟩⟩, [3, 7]⟩ none
      false 0 ⟨true, false, ⟨(1000, 540), 700⟩, ⟨(6, 6), 1⟩⟩ (1000, 540)
      700 3 [7]).1,
   (effects_of_EyelinkGetGaze (0, 0) 50 (1920, 1080)
      ⟨0, some ⟨true, false, ⟨(1000, 540), 700⟩, ⟨(6, 6), 1⟩⟩, [3, 7]⟩ none
      false 0 ⟨true, false, ⟨(1000, 540), 700⟩, ⟨(6, 6), 1⟩⟩ (1000, 540)
      700 3 [7]).2.1 rfl,
   (effects_of_EyelinkGetGaze (0, 0) 50 (1920, 1080)
      ⟨0, some ⟨true, false, ⟨(1000, 540), 700⟩, ⟨(6, 6), 1⟩⟩, [3, 7]⟩ none
      false 0 ⟨true, false, ⟨(1000, 540), 700⟩, ⟨(6, 6), 1⟩⟩ (1000, 540)
      700 3 [7]).2.2.1,
   (effects_of_EyelinkGetGaze (0, 0) 50 (1920, 1080)
      ⟨0, some ⟨true, false, ⟨(1000, 540), 700⟩, ⟨(6, 6), 1⟩⟩, [3, 7]⟩ none
      false 0 ⟨true, false, ⟨(1000, 540), 700⟩, ⟨(6, 6), 1⟩⟩ (1000, 540)
      700 3 [7]).2.2.2.1,
   (effects_of_EyelinkGetGaze (0, 0) 50 (1920, 1080) ⟨0, none, []⟩ none
      false 0 ⟨true, false, ⟨(1000, 540), 700⟩, ⟨(6, 6), 1⟩⟩ (1000, 540)
      700 0 []).2.2.2.2.1 rfl,
   (effects_of_EyelinkGetGaze (0, 0) 50 (1920, 1080)
      ⟨0, some ⟨true, false, ⟨(1000, 540), 700⟩, ⟨(6, 6), 1⟩⟩, [3, 7]⟩ none
      false 0 ⟨true, false, ⟨(1000, 540), 700⟩, ⟨(6, 6), 1⟩⟩ (1000, 540)
      700 3 [7]).2.2.2.2.2 rfl (by decide) (by decide) (by decide)⟩

/-- Filename validation of EyelinkStart, lines 195 to 213: when the
lowercased Name does not contain ".edf", a Name longer than 8 characters
terminates the run with SystemExit (modelled none) and a shorter one gets
".edf" appended; when the lowercased Name does contain ".edf", a Name
longer than 12 characters terminates with SystemExit, else the Name is
kept as is. The some value is the name passed to el.openDataFile. -/
def EyelinkStartFilename (Name : List Char) : Option (List Char) :=
  if ¬ (".edf".toList <:+: Name.map Char.toLower) then
    if Name.length > 8 then none
    else some (Name ++ ".edf".toList)
  else
    if Name.length > 12 then none
    else some Name

example : EyelinkStartFilename "subj01".toList = some "subj01.edf".toList := by
  decide

example : EyelinkStartFilename "subject001".toList = none := by decide

/-- C9: EyelinkStart enforces the 8-character pre-extension constraint:
without ".edf" (case-insensitive) in the name, more than 8 characters
aborts before the data file is opened; with ".edf", more than 12
characters aborts; an accepted name without ".edf" opens the data file
under the name with ".edf" appended. -/
theorem edf_name_constraint (Name : List Char) :
    (¬ (".edf".toList <:+: Name.map Char.toLower) → 8 < Name.length →
      EyelinkStartFilename Name = none)
    ∧ ((".edf".toList <:+: Name.map Char.toLower) → 12 < Name.length →
      EyelinkStartFilename Name = none)
    ∧ (¬ (".edf".toList <:+: Name.map Char.toLower) → Name.length ≤ 8 →
      EyelinkStartFilename Name = some (Name ++ ".edf".toList)) := by
  refine ⟨?_, ?_, ?_⟩
  · intro hin hlen
    unfold EyelinkStartFilename
    rw [if_pos hin, if_pos hlen]
  · intro hin hlen
    unfold EyelinkStartFilename
    rw [if_neg (not_not_intro hin), if_pos hlen]
  · intro hin hlen
    unfold EyelinkStartFilename
    rw [if_pos hin, if_neg (Nat.not_lt.mpr hlen)]

/-- Witness for C9 on the names subject001 (9 letters, rejected),
mydata012.edf (13 characters, rejected) and subj01 (accepted and given
the extension). -/
theorem edf_name_constraint_witness :
    EyelinkStartFilename "subject001".toList = none
    ∧ EyelinkStartFilename "mydata012.edf".toList = none
    ∧ EyelinkStartFilename "subj01".toList = some "subj01.edf".toList :=
  ⟨(edf_name_constraint "subject001".toList).1 (by decide) (by decide),
   (edf_name_constraint "mydata012.edf".toList).2.1 (by decide) (by decide),
   (edf_name_constraint "subj01".toList).2.2 (by decide) (by decide)⟩

/-- Values EyelinkSendTabMsg accepts inside its list: strings, integers
and floats (floats are modelled as rationals). -/
inductive PyVal where
  | str (s : String)
  | int (n : ℤ)
  | float (q : ℚ)
  deriving DecidableEq

/-- Python str() of a value, as used by the join on line 532. -/
def pyStr : PyVal → String
  | .str s => s
  | .int n => toString n
  | .float q => toString q

/-- Argument of EyelinkSendTabMsg: either a Python list or a bare value. -/
inductive PyArg where
  | pylist (l : List PyVal)
  | scalar (v : PyVal)

/-- Lines 526 and 527: a non-list argument is wrapped into a single-item
list. -/
def toItems : PyArg → List PyVal
  | .pylist l => l
  | .scalar v => [v]

/-- Python's tab-join str.join with separator a tab, line 532. -/
def tabJoin : List String → String
  | [] => ""
  | [s] => s
  | s :: rest => s ++ "\t" ++ tabJoin rest

/-- EyelinkSendTabMsg, lines 510 to 535: wraps a non-list argument, looks
at item 0 (an empty list therefore raises IndexError, modelled none),
prepends the identifier ">" when item 0 is not ">", and sends the
tab-separated join of the string forms of all items as one message via
el.sendMessage. The some value is that single message. -/
def EyelinkSendTabMsg (infolist : PyArg) : Option String :=
  match toItems infolist with
  | [] => none
  | first :: rest =>
    let items := if first = PyVal.str ">" then first :: rest
                 else PyVal.str ">" :: first :: rest
    some (tabJoin (items.map pyStr))

example : EyelinkSendTabMsg (.pylist [.str "trialOnset", .int 1]) =
    some (">" ++ "\t" ++ "trialOnset" ++ "\t" ++ "1") := by rfl

/-- Joining a nonempty list of strings yields the head followed by some
tail string. -/
theorem tabJoin_cons_head (s : String) (l : List String) :
    ∃ t, tabJoin (s :: l) = s ++ t := by
  cases l with
  | nil => exact ⟨"", by simp [tabJoin]⟩
  | cons b bs =>
    exact ⟨"\t" ++ tabJoin (b :: bs), by simp [tabJoin, String.append_assoc]⟩

/-- Counterexample to C10: the empty list is an input on which
EyelinkSendTabMsg sends no message at all; item access infolist[0] raises
IndexError first. -/
theorem sendTabMsg_empty_list_none : EyelinkSendTabMsg (.pylist []) = none := rfl

/-- C10 amended: for every input whose wrapped list form is nonempty,
EyelinkSendTabMsg sends exactly one message, namely the tab-separated join
of the string forms of the items with ">" prepended whenever the first
item differs from ">", so the sent message always begins with the ">"
identifier; the empty list instead raises IndexError and sends nothing. -/
theorem sendTabMsg_one_tagged_message (arg : PyArg) (v : PyVal)
    (rest : List PyVal) (h : toItems arg = v :: rest) :
    EyelinkSendTabMsg arg =
      some (tabJoin ((if v = PyVal.str ">" then v :: rest
        else PyVal.str ">" :: v :: rest).map pyStr))
    ∧ ∃ t, tabJoin ((if v = PyVal.str ">" then v :: rest
        else PyVal.str ">" :: v :: rest).map pyStr) = ">" ++ t := by
  constructor
  · simp only [EyelinkSendTabMsg, h]
  · by_cases hv : v = PyVal.str ">"
    · subst hv
      simpa [pyStr] using tabJoin_cons_head ">" (rest.map pyStr)
    · simp only [if_neg hv, List.map]
      simpa [pyStr] using tabJoin_cons_head ">" ((v :: rest).map pyStr)

/-- Witness for the amended C10 on the scalar argument 5. -/
theorem sendTabMsg_one_tagged_message_witness :
    EyelinkSendTabMsg (.scalar (.int 5)) =
      some (tabJoin ((if PyVal.int 5 = PyVal.str ">" then [PyVal.int 5]
        else [PyVal.str ">", PyVal.int 5]).map pyStr))
    ∧ ∃ t, tabJoin ((if PyVal.int 5 = PyVal.str ">" then [PyVal.int 5]
        else [PyVal.str ">", PyVal.int 5]).map pyStr) = ">" ++ t :=
  sendTabMsg_one_tagged_message (.scalar (.int 5)) (.int 5) [] rfl
